import Mathlib

/-!
Verification of the VideoStream scene-orchestration engine (edit-stream-manager).

The development shallowly embeds, in Lean 4:
  * the SQL schema and stored procedures from the repository README
    (scenes, scene_versions, profiles tables, the next_scene_ordinal
    function, and the row-level-security policy on scenes);
  * the React reducer and helpers from src/contexts/AppContext.tsx and
    src/components/dashboard/DashboardHeader.tsx;
  * the parts of the orchestration engine (version store, job tracker)
    whose implementation lives in edge functions absent from the sources,
    modelled from the specification.

Tables are lists of rows; SQL NULL is Option.none; timestamps are Nat.
-/

/-- The scene_status enum from the schema. -/
inductive SceneStatus
  | queued
  | processing
  | ready
  | error
deriving DecidableEq, Repr

/-- The luma_status enum from the schema. -/
inductive LumaStatus
  | pending
  | processing
  | completed
  | failed
deriving DecidableEq, Repr

/-- The user_status enum from the schema. -/
inductive UserStatus
  | pending
  | approved
  | rejected
deriving DecidableEq, Repr

/-- The user_role enum from the schema. -/
inductive UserRole
  | user
  | admin
deriving DecidableEq, Repr

/-- A row of the public.scenes table (schema in the README).  Ids are Nat
standing for UUIDs; created_at and updated_at are omitted because no claim
mentions them. -/
structure Scene where
  id : Nat
  user_id : Nat
  project_id : Nat
  folder : String
  start_key : String
  end_key : Option String
  shot_type_id : Nat
  ordinal : Int
  version : Int
  luma_job_id : Option String
  luma_status : LumaStatus
  luma_error : Option String
  status : SceneStatus
  deleted_at : Option Nat
deriving DecidableEq, Repr

/-- The stored procedure public.next_scene_ordinal from the README:
SELECT COALESCE(MAX(ordinal), 0) + 1 FROM public.scenes
WHERE project_id = p_project_id.  Note the WHERE clause has no filter on
deleted_at: every scene row of the project participates, soft-deleted
ones included. -/
def next_scene_ordinal (p_project_id : Nat) (scenes : List Scene) : Int :=
  (((scenes.filter (fun s => s.project_id == p_project_id)).map Scene.ordinal).max?.getD 0) + 1

/-- The allocator as the specification words it, for comparison with
next_scene_ordinal: the next integer greater than the maximum ordinal
currently assigned to non-deleted scenes of the project, or 1 if none
exist. -/
def next_scene_ordinal_specModel (p_project_id : Nat) (scenes : List Scene) : Int :=
  match ((scenes.filter
      (fun s => s.project_id == p_project_id && s.deleted_at == none)).map Scene.ordinal).max? with
  | none => 1
  | some m => m + 1

/-- A scene row inserted by the create-scene operation.

Modelled from the spec: the luma-create-scene edge function is not among
the repository sources; per the spec the Facade creates the scene row
queued, and the insert supplies only the caller-provided columns, so the
remaining columns take the defaults of the scenes table in the README
schema (version 1, luma_status pending, status queued, and NULL for
luma_job_id, luma_error and deleted_at). -/
def createSceneRow (id user_id project_id : Nat) (folder start_key : String)
    (end_key : Option String) (shot_type_id : Nat) (ordinal : Int) : Scene :=
  { id := id
    user_id := user_id
    project_id := project_id
    folder := folder
    start_key := start_key
    end_key := end_key
    shot_type_id := shot_type_id
    ordinal := ordinal
    version := 1
    luma_job_id := none
    luma_status := LumaStatus.pending
    luma_error := none
    status := SceneStatus.queued
    deleted_at := none }

/-- A project holding exactly one soft-deleted scene at ordinal 5:
the input on which next_scene_ordinal and the specification disagree. -/
def exDeletedDb : List Scene :=
  [{ id := 10, user_id := 1, project_id := 1, folder := "f", start_key := "s",
     end_key := none, shot_type_id := 1, ordinal := 5, version := 1,
     luma_job_id := none, luma_status := LumaStatus.pending, luma_error := none,
     status := SceneStatus.queued, deleted_at := some 0 }]

/-- One atomic database step of an in-flight create-scene request: the
read of next_scene_ordinal and the later insert of the scene row are two
separate statements in the source, so a concurrent request can run
between them. -/
inductive CreateEv
  | readMax (tid : Nat)
  | insertRow (tid : Nat)
deriving DecidableEq, Repr

/-- Shared state of concurrently running create-scene requests: the
scenes table plus, per request still between its read and its insert,
the ordinal it read. -/
structure ConcState where
  db : List Scene
  pendingOrd : List (Nat × Int)
deriving DecidableEq, Repr

/-- One scheduler step over the concurrent create-scene requests for
project p by user uid.  readMax runs the next_scene_ordinal query against
the current table; insertRow inserts the row with the ordinal that request
read earlier (a no-op for a request that has not read yet).  The schema
puts no uniqueness constraint on (project_id, ordinal), so the insert
always succeeds. -/
def concStep (uid p : Nat) (st : ConcState) (e : CreateEv) : ConcState :=
  match e with
  | CreateEv.readMax tid =>
      { st with pendingOrd := (tid, next_scene_ordinal p st.db) :: st.pendingOrd }
  | CreateEv.insertRow tid =>
      match st.pendingOrd.lookup tid with
      | some o =>
          { db := st.db ++ [createSceneRow (100 + tid) uid p "f" "s" none 1 o]
            pendingOrd := st.pendingOrd.filter (fun q => q.1 != tid) }
      | none => st

/-- Run a schedule of interleaved create-scene steps from an empty table. -/
def concRun (uid p : Nat) (sched : List CreateEv) : ConcState :=
  sched.foldl (concStep uid p) { db := [], pendingOrd := [] }

/-- A row of the public.scene_versions table (schema in the README);
render_meta JSONB is an opaque key/value list. -/
structure SceneVersionRec where
  scene_id : Nat
  version : Nat
  video_url : Option String
  render_meta : List (String × String)
deriving DecidableEq, Repr

/-- Conflict error surfaced by the compare-and-set operations. -/
inductive OrchError
  | conflict
deriving DecidableEq, Repr

/-- The version records stored for one scene, in insertion order. -/
structure VersionState where
  versions : List SceneVersionRec
deriving DecidableEq, Repr

/-- Version Store append.

Modelled from the spec: the luma-scene-status edge function that writes
scene_versions is not among the repository sources.  Per the spec,
append(sceneId, expectedPriorVersion, mediaRef, meta) atomically checks
that the current version count of the scene equals expectedPriorVersion,
inserts a new version record at expectedPriorVersion + 1, and rejects
with a conflict error if the expected prior version does not match. -/
def appendVersion (scene_id expectedPriorVersion : Nat) (mediaRef : Option String)
    (meta : List (String × String)) (st : VersionState) :
    Except OrchError (Nat × VersionState) :=
  if st.versions.length = expectedPriorVersion then
    Except.ok (expectedPriorVersion + 1,
      { versions := st.versions ++
          [{ scene_id := scene_id, version := expectedPriorVersion + 1,
             video_url := mediaRef, render_meta := meta }] })
  else
    Except.error OrchError.conflict

/-- One append request: expected prior version, media reference, metadata. -/
structure AppendReq where
  expectedPriorVersion : Nat
  mediaRef : Option String
  meta : List (String × String)
deriving DecidableEq, Repr

/-- Effect of one append request on the version state: the new state on
success, the unchanged state on a conflict rejection. -/
def appendFold (scene_id : Nat) (acc : VersionState) (r : AppendReq) : VersionState :=
  match appendVersion scene_id r.expectedPriorVersion r.mediaRef r.meta acc with
  | Except.ok res => res.2
  | Except.error _ => acc

/-- Run a sequence of append requests against the version state of a scene;
a rejected append leaves the state unchanged. -/
def runAppends (scene_id : Nat) (reqs : List AppendReq) (st : VersionState) : VersionState :=
  reqs.foldl (appendFold scene_id) st

/-- The gapless invariant of the spec: the version numbers stored for a
scene read, in order, 1, 2, ..., count. -/
def gaplessVersions (st : VersionState) : Prop :=
  st.versions.map SceneVersionRec.version = List.range' 1 st.versions.length

/-- One Job Tracker / Scene Lifecycle operation on a scene.

Modelled from the spec: the luma-create-scene and luma-scene-status edge
functions driving the status state machine are not among the repository
sources.  Transitions follow the state machine of the spec: submission moves
queued to processing setting the external-job fields; observing external
completion moves processing to ready; observing external failure moves
processing to error recording the failure reason; regenerate moves error
or ready back to queued resetting the external-job fields. -/
inductive LifecycleOp
  | beginSubmission (jobId : String)
  | completeJob
  | failJob (msg : String)
  | regenerate
deriving DecidableEq, Repr

/-- Compare-and-set transition of the scene status state machine; an
operation attempted from an unexpected state fails with a conflict
error rather than overwriting (modelled from the spec, as for
LifecycleOp). -/
def lifecycleStep (s : Scene) (op : LifecycleOp) : Except OrchError Scene :=
  match op with
  | LifecycleOp.beginSubmission jobId =>
      if s.status = SceneStatus.queued then
        Except.ok { s with status := SceneStatus.processing,
                           luma_job_id := some jobId,
                           luma_status := LumaStatus.pending }
      else Except.error OrchError.conflict
  | LifecycleOp.completeJob =>
      if s.status = SceneStatus.processing then
        Except.ok { s with status := SceneStatus.ready,
                           luma_status := LumaStatus.completed }
      else Except.error OrchError.conflict
  | LifecycleOp.failJob msg =>
      if s.status = SceneStatus.processing then
        Except.ok { s with status := SceneStatus.error,
                           luma_status := LumaStatus.failed,
                           luma_error := some msg }
      else Except.error OrchError.conflict
  | LifecycleOp.regenerate =>
      if s.status = SceneStatus.error ∨ s.status = SceneStatus.ready then
        Except.ok { s with status := SceneStatus.queued,
                           luma_job_id := none,
                           luma_status := LumaStatus.pending,
                           luma_error := none }
      else Except.error OrchError.conflict

/-- Effect of one lifecycle operation on a scene: the new scene on a
successful transition, the unchanged scene on a conflict rejection. -/
def lifecycleFold (acc : Scene) (op : LifecycleOp) : Scene :=
  match lifecycleStep acc op with
  | Except.ok s2 => s2
  | Except.error _ => acc

/-- Run a sequence of lifecycle operations; a conflicting operation
leaves the scene unchanged. -/
def runLifecycle (ops : List LifecycleOp) (s : Scene) : Scene :=
  ops.foldl lifecycleFold s

/-- The invariant of the claim: a scene in error status carries a
non-empty external-job error message. -/
def errorInv (s : Scene) : Prop :=
  s.status = SceneStatus.error → ∃ m, s.luma_error = some m ∧ m ≠ ""

/-- The failure reason recorded by an operation is an actual message:
failJob carries a non-empty string. -/
def opMsgNonEmpty (op : LifecycleOp) : Prop :=
  match op with
  | LifecycleOp.failJob msg => msg ≠ ""
  | _ => True

/-- A row of the public.profiles table (schema in the README). -/
structure ProfileRow where
  id : Nat
  email : String
  role : UserRole
  status : UserStatus
  api_key_hash : Option String
deriving DecidableEq, Repr

/-- The USING predicate of the row-level-security policy
Users can manage own scenes (README): auth.uid() = user_id AND there
EXISTS a profiles row with id = auth.uid() and status = approved. -/
def scenesPolicyUsing (auth_uid : Nat) (profiles : List ProfileRow) (row : Scene) : Bool :=
  (auth_uid == row.user_id) &&
    profiles.any (fun p => p.id == auth_uid && p.status == UserStatus.approved)

/-- A SQL command class against the scenes table; the policy is declared
FOR ALL, covering creation, reads (including regenerate preconditions and
export), updates and deletes. -/
inductive SqlCmd
  | select
  | insert
  | update
  | delete
deriving DecidableEq, Repr

/-- Whether the row-level-security layer lets command cmd by caller
auth_uid touch the given scenes row: the FOR ALL policy applies the same
USING predicate to every command. -/
def sceneOpAllowed (_cmd : SqlCmd) (auth_uid : Nat) (profiles : List ProfileRow)
    (row : Scene) : Bool :=
  scenesPolicyUsing auth_uid profiles row

/-- The Profile interface of src/contexts/AppContext.tsx and the Settings
page: unlike the SQL schema, the client code carries a plain luma_api_key
field on the profile row. -/
structure ProfileUI where
  id : Nat
  email : String
  role : String
  status : String
  luma_api_key : Option String
  created_at : Nat
  updated_at : Nat
deriving DecidableEq, Repr

/-- The trim method of a JS string: whitespace stripped from both ends. -/
def jsTrim (s : String) : String :=
  String.mk (((s.data.dropWhile Char.isWhitespace).reverse.dropWhile
    Char.isWhitespace).reverse)

/-- handleUpdateApiKey from the Settings page in AppContext.tsx: when the
submitted key is non-blank, update the profiles row of the caller setting
luma_api_key to the submitted value and updated_at to now; a blank key is
rejected before any update.  The profiles table is a list of rows and now
stands for new Date().toISOString(). -/
def handleUpdateApiKey (uid : Nat) (lumaApiKey : String) (now : Nat)
    (profiles : List ProfileUI) : List ProfileUI :=
  if jsTrim lumaApiKey = "" then profiles
  else profiles.map (fun p =>
    if p.id == uid then { p with luma_api_key := some lumaApiKey, updated_at := now }
    else p)

/-- The theme union type of AppContext.tsx. -/
inductive Theme
  | light
  | dark
  | system
deriving DecidableEq, Repr

/-- The notification type union of AppContext.tsx. -/
inductive NotifType
  | info
  | success
  | warning
  | error
deriving DecidableEq, Repr

/-- The Notification interface of AppContext.tsx; the id is the string the
reducer derives from Date.now(), the timestamp a Nat. -/
structure Notification where
  id : String
  type : NotifType
  title : String
  message : String
  timestamp : Nat
  read : Bool
deriving DecidableEq, Repr

/-- The exportFormat union type of the UserPreferences interface. -/
inductive ExportFormat
  | mp4
  | mov
  | avi
deriving DecidableEq, Repr

/-- The quality union type of the UserPreferences interface. -/
inductive Quality
  | low
  | medium
  | high
deriving DecidableEq, Repr

/-- The UserPreferences interface of AppContext.tsx. -/
structure UserPreferences where
  autoSave : Bool
  emailNotifications : Bool
  keyboardShortcuts : Bool
  defaultShotType : String
  exportFormat : ExportFormat
  quality : Quality
deriving DecidableEq, Repr

/-- The payload type of UPDATE_PREFERENCES: a patch of UserPreferences with
every field optional. -/
structure PrefsPatch where
  autoSave : Option Bool
  emailNotifications : Option Bool
  keyboardShortcuts : Option Bool
  defaultShotType : Option String
  exportFormat : Option ExportFormat
  quality : Option Quality
deriving DecidableEq, Repr

/-- The spread merge of a patch over preferences, as in the
UPDATE_PREFERENCES case of the reducer. -/
def mergePreferences (prefs : UserPreferences) (patch : PrefsPatch) : UserPreferences :=
  { autoSave := patch.autoSave.getD prefs.autoSave
    emailNotifications := patch.emailNotifications.getD prefs.emailNotifications
    keyboardShortcuts := patch.keyboardShortcuts.getD prefs.keyboardShortcuts
    defaultShotType := patch.defaultShotType.getD prefs.defaultShotType
    exportFormat := patch.exportFormat.getD prefs.exportFormat
    quality := patch.quality.getD prefs.quality }

/-- The supabase User object, at the granularity the reducer needs. -/
structure UserRec where
  id : Nat
  email : String
deriving DecidableEq, Repr

/-- The AppState interface of AppContext.tsx. -/
structure AppState where
  user : Option UserRec
  profile : Option ProfileUI
  loading : Bool
  theme : Theme
  sidebarOpen : Bool
  notifications : List Notification
  preferences : UserPreferences
deriving DecidableEq, Repr

/-- The AppAction union of AppContext.tsx; the ADD_NOTIFICATION payload
omits id, timestamp and read exactly as the Omit type does. -/
inductive AppAction
  | SET_USER (payload : Option UserRec)
  | SET_PROFILE (payload : Option ProfileUI)
  | SET_LOADING (payload : Bool)
  | SET_THEME (payload : Theme)
  | TOGGLE_SIDEBAR
  | ADD_NOTIFICATION (type : NotifType) (title : String) (message : String)
  | MARK_NOTIFICATION_READ (payload : String)
  | CLEAR_NOTIFICATIONS
  | UPDATE_PREFERENCES (payload : PrefsPatch)
  | RESET_STATE
deriving DecidableEq, Repr

/-- The initialState constant of AppContext.tsx. -/
def initialState : AppState :=
  { user := none
    profile := none
    loading := true
    theme := Theme.system
    sidebarOpen := false
    notifications := []
    preferences :=
      { autoSave := true
        emailNotifications := true
        keyboardShortcuts := true
        defaultShotType := "wide"
        exportFormat := ExportFormat.mp4
        quality := Quality.medium } }

/-- The appReducer function of AppContext.tsx.  The ambient clock read by
the ADD_NOTIFICATION case (Date.now() for the id, new Date() for the
timestamp) is passed as the explicit parameter now. -/
def appReducer (state : AppState) (action : AppAction) (now : Nat) : AppState :=
  match action with
  | AppAction.SET_USER payload => { state with user := payload }
  | AppAction.SET_PROFILE payload => { state with profile := payload }
  | AppAction.SET_LOADING payload => { state with loading := payload }
  | AppAction.SET_THEME payload => { state with theme := payload }
  | AppAction.TOGGLE_SIDEBAR => { state with sidebarOpen := !state.sidebarOpen }
  | AppAction.ADD_NOTIFICATION ty title message =>
      { state with notifications :=
          ({ id := toString now, type := ty, title := title, message := message,
             timestamp := now, read := false } :: state.notifications).take 50 }
  | AppAction.MARK_NOTIFICATION_READ payload =>
      { state with notifications :=
          state.notifications.map (fun n =>
            if n.id == payload then { n with read := true } else n) }
  | AppAction.CLEAR_NOTIFICATIONS => { state with notifications := [] }
  | AppAction.UPDATE_PREFERENCES payload =>
      { state with preferences := mergePreferences state.preferences payload }
  | AppAction.RESET_STATE => initialState

/-- One dispatched action paired with the clock value at which the
reducer ran. -/
def appStep (st : AppState) (a : AppAction × Nat) : AppState :=
  appReducer st a.1 a.2

/-- A dispatch history run from the initial state. -/
def runApp (acts : List (AppAction × Nat)) : AppState :=
  acts.foldl appStep initialState

/-- The split method of a JS string on a one-character separator, on the
List Char model of strings: s.split(sep) with the JS convention that the
empty string splits to one empty field. -/
def splitOnCharJs (sep : Char) : List Char → List (List Char)
  | [] => [[]]
  | c :: rest =>
      let ps := splitOnCharJs sep rest
      if c = sep then [] :: ps
      else (c :: ps.headD []) :: ps.tail

/-- getInitials from DashboardHeader.tsx on the List Char model of JS
strings: email.split(atSign)[0].slice(0, 2).toUpperCase(), with
toUpperCase modelled by Char.toUpper. -/
def getInitials (email : List Char) : List Char :=
  (((splitOnCharJs '@' email).headD []).take 2).map Char.toUpper

/-- A profiles table holding one caller whose status is still pending. -/
def exProfilesPending : List ProfileRow :=
  [{ id := 1, email := "u@x.com", role := UserRole.user,
     status := UserStatus.pending, api_key_hash := none }]

/-- A concrete scene row owned by caller 1. -/
def exScene : Scene :=
  createSceneRow 7 1 1 "f" "s" none 1 1

/-- A client-side profiles table holding one row for caller 1 with no key
stored yet. -/
def exProfilesUI : List ProfileUI :=
  [{ id := 1, email := "u@x.com", role := "user", status := "approved",
     luma_api_key := none, created_at := 0, updated_at := 0 }]

/-- A concrete unread notification with id 1. -/
def exNotif1 : Notification :=
  { id := "1", type := NotifType.info, title := "t1", message := "m1",
    timestamp := 1, read := false }

/-- A concrete unread notification with id 2. -/
def exNotif2 : Notification :=
  { id := "2", type := NotifType.error, title := "t2", message := "m2",
    timestamp := 2, read := false }

/-- A concrete application state holding two notifications. -/
def exAppState : AppState :=
  { initialState with notifications := [exNotif1, exNotif2] }

theorem int_max?_mem {l : List Int} {m : Int} (h : l.max? = some m) : m ∈ l :=
  List.max?_mem (fun a b => max_choice a b) h

theorem int_le_of_max? {l : List Int} {m : Int} (h : l.max? = some m) :
    ∀ a ∈ l, a ≤ m :=
  fun a ha => (List.max?_le_iff (fun _ _ _ => max_le_iff) h).1 le_rfl a ha

/-- Claim C1, as stated, is false on the code: next_scene_ordinal does not
exclude soft-deleted scenes.  On a project whose only scene is
soft-deleted at ordinal 5, the code returns 6 while the claim demands 1
(there are no non-deleted scenes). -/
theorem C1_counterexample :
    next_scene_ordinal 1 exDeletedDb = 6 ∧
    exDeletedDb.filter (fun s => s.project_id == 1 && s.deleted_at == none) = [] ∧
    next_scene_ordinal_specModel 1 exDeletedDb = 1 := by
  refine ⟨by decide, by decide, by decide⟩

/-- Claim C1 amended: next_scene_ordinal returns 1 when the project has no
scenes at all, and otherwise one greater than the maximum ordinal over all
all scenes of the project, soft-deleted scenes included. -/
theorem C1_next_ordinal_over_all_scenes (p : Nat) (db : List Scene) :
    (db.filter (fun s => s.project_id == p) = [] → next_scene_ordinal p db = 1)
    ∧ (∀ s ∈ db.filter (fun s => s.project_id == p),
        s.ordinal < next_scene_ordinal p db)
    ∧ (db.filter (fun s => s.project_id == p) ≠ [] →
        ∃ s ∈ db.filter (fun s => s.project_id == p),
          next_scene_ordinal p db = s.ordinal + 1) := by
  refine ⟨fun h => ?_, fun s hs => ?_, fun hne => ?_⟩
  · simp [next_scene_ordinal, h]
  · rcases hmax : ((db.filter (fun s => s.project_id == p)).map Scene.ordinal).max? with _ | m
    · rw [List.max?_eq_none_iff, List.map_eq_nil_iff] at hmax
      simp [hmax] at hs
    · have hle : s.ordinal ≤ m :=
        int_le_of_max? hmax s.ordinal (List.mem_map_of_mem _ hs)
      simp only [next_scene_ordinal, hmax, Option.getD_some]
      omega
  · rcases hmax : ((db.filter (fun s => s.project_id == p)).map Scene.ordinal).max? with _ | m
    · rw [List.max?_eq_none_iff, List.map_eq_nil_iff] at hmax
      exact absurd hmax hne
    · rcases List.mem_map.1 (int_max?_mem hmax) with ⟨s, hs, heq⟩
      exact ⟨s, hs, by simp [next_scene_ordinal, hmax, heq]⟩

/-- Witness for C1_next_ordinal_over_all_scenes at the concrete table
exDeletedDb. -/
theorem C1_witness :
    exDeletedDb.filter (fun s => s.project_id == 1) ≠ [] ∧
    ∃ s ∈ exDeletedDb.filter (fun s => s.project_id == 1),
      next_scene_ordinal 1 exDeletedDb = s.ordinal + 1 :=
  ⟨by decide, (C1_next_ordinal_over_all_scenes 1 exDeletedDb).2.2 (by decide)⟩

/-- Claim C2 fails on the code: under the interleaving in which two
concurrent create-scene requests both run next_scene_ordinal before
either inserts, both scenes receive ordinal 1 — not the distinct set
required by the claim. -/
theorem C2_race_duplicate_ordinals :
    ((concRun 1 1 [CreateEv.readMax 0, CreateEv.readMax 1,
        CreateEv.insertRow 0, CreateEv.insertRow 1]).db.map Scene.ordinal) = [1, 1]
    ∧ ¬ ((concRun 1 1 [CreateEv.readMax 0, CreateEv.readMax 1,
        CreateEv.insertRow 0, CreateEv.insertRow 1]).db.map Scene.ordinal).Nodup := by
  refine ⟨by decide, by decide⟩

/-- Claim C5: a newly created scene row starts with status queued,
version 1 and a null external-job id. -/
theorem C5_new_scene_defaults (id user_id project_id : Nat)
    (folder start_key : String) (end_key : Option String)
    (shot_type_id : Nat) (ordinal : Int) :
    (createSceneRow id user_id project_id folder start_key end_key
        shot_type_id ordinal).status = SceneStatus.queued
    ∧ (createSceneRow id user_id project_id folder start_key end_key
        shot_type_id ordinal).version = 1
    ∧ (createSceneRow id user_id project_id folder start_key end_key
        shot_type_id ordinal).luma_job_id = none :=
  ⟨rfl, rfl, rfl⟩

theorem appendFold_gapless (sid : Nat) (r : AppendReq) (st : VersionState)
    (h : gaplessVersions st) : gaplessVersions (appendFold sid st r) := by
  by_cases hc : st.versions.length = r.expectedPriorVersion
  · unfold gaplessVersions at h ⊢
    simp only [appendFold, appendVersion, if_pos hc]
    simp only [List.map_append, List.length_append, List.map_cons, List.map_nil,
      List.length_cons, List.length_nil, Nat.add_zero]
    rw [h, ← hc, List.range'_1_concat]
    simp [Nat.add_comm]
  · simpa only [appendFold, appendVersion, if_neg hc] using h

theorem runAppends_gapless (sid : Nat) (reqs : List AppendReq) (st : VersionState)
    (h : gaplessVersions st) : gaplessVersions (runAppends sid reqs st) := by
  induction reqs generalizing st with
  | nil => exact h
  | cons r rs ih => exact ih _ (appendFold_gapless sid r st h)

theorem appendFold_extends (sid : Nat) (r : AppendReq) (st : VersionState) :
    st.versions <+: (appendFold sid st r).versions := by
  by_cases hc : st.versions.length = r.expectedPriorVersion
  · simp only [appendFold, appendVersion, if_pos hc]
    exact List.prefix_append _ _
  · simp only [appendFold, appendVersion, if_neg hc]
    exact List.prefix_refl _

theorem runAppends_extends (sid : Nat) (reqs : List AppendReq) (st : VersionState) :
    st.versions <+: (runAppends sid reqs st).versions := by
  induction reqs generalizing st with
  | nil => exact List.prefix_refl _
  | cons r rs ih => exact (appendFold_extends sid r st).trans (ih _)

/-- Claim C3: whatever append requests reach the Version Store of a
scene, the stored version records read 1, 2, ..., current count with no
gaps or duplicates, and the store is append-only: any later requests
leave every already-stored record in place, unmodified (the earlier
records form a prefix of the later ones). -/
theorem C3_versions_gapless_append_only (scene_id : Nat) (reqs : List AppendReq) :
    gaplessVersions (runAppends scene_id reqs { versions := [] })
    ∧ ∀ more : List AppendReq,
        (runAppends scene_id reqs { versions := [] }).versions <+:
          (runAppends scene_id (reqs ++ more) { versions := [] }).versions := by
  constructor
  · exact runAppends_gapless _ _ _ (by simp [gaplessVersions])
  · intro more
    simp only [runAppends, List.foldl_append]
    exact runAppends_extends scene_id more _

theorem lifecycleFold_errorInv (s : Scene) (op : LifecycleOp)
    (hm : opMsgNonEmpty op) (h : errorInv s) : errorInv (lifecycleFold s op) := by
  cases op with
  | beginSubmission jobId =>
      by_cases hs : s.status = SceneStatus.queued
      · simp only [lifecycleFold, lifecycleStep, if_pos hs]
        intro he
        simp at he
      · simpa only [lifecycleFold, lifecycleStep, if_neg hs] using h
  | completeJob =>
      by_cases hs : s.status = SceneStatus.processing
      · simp only [lifecycleFold, lifecycleStep, if_pos hs]
        intro he
        simp at he
      · simpa only [lifecycleFold, lifecycleStep, if_neg hs] using h
  | failJob msg =>
      by_cases hs : s.status = SceneStatus.processing
      · simp only [lifecycleFold, lifecycleStep, if_pos hs]
        exact fun _ => ⟨msg, rfl, hm⟩
      · simpa only [lifecycleFold, lifecycleStep, if_neg hs] using h
  | regenerate =>
      by_cases hs : s.status = SceneStatus.error ∨ s.status = SceneStatus.ready
      · simp only [lifecycleFold, lifecycleStep, if_pos hs]
        intro he
        simp at he
      · simpa only [lifecycleFold, lifecycleStep, if_neg hs] using h

theorem runLifecycle_errorInv (ops : List LifecycleOp) (s : Scene)
    (hm : ∀ op ∈ ops, opMsgNonEmpty op) (h : errorInv s) :
    errorInv (runLifecycle ops s) := by
  induction ops generalizing s with
  | nil => exact h
  | cons op rest ih =>
      exact ih _ (fun o ho => hm o (List.mem_cons_of_mem _ ho))
        (lifecycleFold_errorInv s op (hm op (List.mem_cons_self _ _)) h)

/-- Claim C4: starting from a freshly created scene, after any sequence
of lifecycle operations whose failure transitions carry an actual
(non-empty) failure reason, a scene whose status is error has a non-empty
luma_error message. -/
theorem C4_error_has_message (id uid pid : Nat) (folder start_key : String)
    (end_key : Option String) (shot : Nat) (ord : Int) (ops : List LifecycleOp)
    (hm : ∀ op ∈ ops, opMsgNonEmpty op) :
    errorInv (runLifecycle ops
      (createSceneRow id uid pid folder start_key end_key shot ord)) :=
  runLifecycle_errorInv ops _ hm (by intro he; simp [createSceneRow] at he)

/-- Witness for C4_error_has_message on a concrete failing run: submit,
then observe a failure with the recorded reason. -/
theorem C4_witness :
    (∀ op ∈ [LifecycleOp.beginSubmission "j1",
        LifecycleOp.failJob "Luma submission failed"], opMsgNonEmpty op)
    ∧ errorInv (runLifecycle
        [LifecycleOp.beginSubmission "j1",
         LifecycleOp.failJob "Luma submission failed"]
        (createSceneRow 1 1 1 "f" "s" none 1 1)) := by
  have hm : ∀ op ∈ [LifecycleOp.beginSubmission "j1",
      LifecycleOp.failJob "Luma submission failed"], opMsgNonEmpty op := by
    intro op hop
    simp only [List.mem_cons, List.mem_singleton, List.not_mem_nil, or_false] at hop
    rcases hop with rfl | rfl
    · trivial
    · show ("Luma submission failed" : String) ≠ ""
      decide
  exact ⟨hm, C4_error_has_message 1 1 1 "f" "s" none 1 1 _ hm⟩

/-- Claim C6: for a caller with no approved profiles row, the FOR ALL
row-level-security policy on scenes rejects every command — selects
(reads, export), inserts (create), updates (regenerate, soft delete) and
deletes alike — so no scene row is readable, created or mutated on behalf
of a non-approved caller. -/
theorem C6_non_approved_rejected (cmd : SqlCmd) (uid : Nat)
    (profiles : List ProfileRow) (row : Scene)
    (h : ∀ p ∈ profiles, p.id = uid → p.status ≠ UserStatus.approved) :
    sceneOpAllowed cmd uid profiles row = false := by
  unfold sceneOpAllowed scenesPolicyUsing
  have hany : profiles.any
      (fun p => p.id == uid && p.status == UserStatus.approved) = false := by
    rw [List.any_eq_false]
    intro p hp
    simp only [Bool.and_eq_true, beq_iff_eq, not_and]
    intro h1 h2
    exact h p hp h1 h2
  simp [hany]

/-- Witness for C6_non_approved_rejected: a pending caller is rejected on
an update of their own scene row. -/
theorem C6_witness :
    (∀ p ∈ exProfilesPending, p.id = 1 → p.status ≠ UserStatus.approved)
    ∧ sceneOpAllowed SqlCmd.update 1 exProfilesPending exScene = false :=
  ⟨by decide, C6_non_approved_rejected SqlCmd.update 1 exProfilesPending exScene
    (by decide)⟩

/-- Claim C7 fails on the code: handleUpdateApiKey writes the submitted
key verbatim into the luma_api_key column of the profile — after the update
the stored field holds the plain-text key itself, not a SHA-256 hash in
api_key_hash. -/
theorem C7_plaintext_key_stored :
    (handleUpdateApiKey 1 "luma-plain-key-123" 5 exProfilesUI).map
        ProfileUI.luma_api_key = [some "luma-plain-key-123"] := by
  decide

theorem appStep_notif_le (st : AppState) (a : AppAction × Nat)
    (h : st.notifications.length ≤ 50) :
    (appStep st a).notifications.length ≤ 50 := by
  rcases a with ⟨act, now⟩
  cases act with
  | SET_USER payload => simpa [appStep, appReducer] using h
  | SET_PROFILE payload => simpa [appStep, appReducer] using h
  | SET_LOADING payload => simpa [appStep, appReducer] using h
  | SET_THEME payload => simpa [appStep, appReducer] using h
  | TOGGLE_SIDEBAR => simpa [appStep, appReducer] using h
  | ADD_NOTIFICATION ty title message =>
      simp only [appStep, appReducer]
      exact List.length_take_le _ _
  | MARK_NOTIFICATION_READ payload => simpa [appStep, appReducer] using h
  | CLEAR_NOTIFICATIONS => simp [appStep, appReducer]
  | UPDATE_PREFERENCES payload => simpa [appStep, appReducer] using h
  | RESET_STATE => simp [appStep, appReducer, initialState]

theorem foldl_appStep_notif_le (acts : List (AppAction × Nat)) (st : AppState)
    (h : st.notifications.length ≤ 50) :
    ((acts.foldl appStep st).notifications.length ≤ 50) := by
  induction acts generalizing st with
  | nil => exact h
  | cons a rest ih => exact ih _ (appStep_notif_le st a h)

/-- Claim C8: ADD_NOTIFICATION prepends the new notification, unread,
and keeps only the 50 most recent entries; every application state
respecting the 50-entry bound keeps respecting it under any sequence of
reducer actions, and consequently along any dispatch history from the
initial state the notifications list never exceeds 50 entries. -/
theorem C8_notifications_capped :
    (∀ (s : AppState) (ty : NotifType) (title message : String) (now : Nat),
      (appReducer s (AppAction.ADD_NOTIFICATION ty title message) now).notifications
        = ({ id := toString now, type := ty, title := title, message := message,
             timestamp := now, read := false } :: s.notifications).take 50)
    ∧ (∀ (s : AppState) (acts : List (AppAction × Nat)),
        s.notifications.length ≤ 50 →
          ((acts.foldl appStep s).notifications.length ≤ 50))
    ∧ ∀ acts : List (AppAction × Nat), (runApp acts).notifications.length ≤ 50 := by
  refine ⟨fun s ty title message now => rfl,
    fun s acts h => foldl_appStep_notif_le acts s h, fun acts => ?_⟩
  exact foldl_appStep_notif_le acts initialState (by simp [initialState])

/-- Witness for C8_notifications_capped at the concrete initial state and
a one-action dispatch history. -/
theorem C8_witness :
    initialState.notifications.length ≤ 50
    ∧ (([(AppAction.ADD_NOTIFICATION NotifType.info "t" "m", 3)].foldl appStep
        initialState).notifications.length ≤ 50) :=
  ⟨by decide, C8_notifications_capped.2.1 initialState
    [(AppAction.ADD_NOTIFICATION NotifType.info "t" "m", 3)] (by decide)⟩

/-- Claim C9: MARK_NOTIFICATION_READ maps the notifications list
pointwise, setting read on the entries whose id matches and leaving
every other entry — and every position, so length and order — unchanged;
all other state fields are untouched, and when no id matches the state
is returned unchanged. -/
theorem C9_mark_read_frame (s : AppState) (nid : String) (now : Nat) :
    (∀ i : Nat,
      (appReducer s (AppAction.MARK_NOTIFICATION_READ nid) now).notifications[i]?
        = (s.notifications[i]?).map
            (fun n => if n.id == nid then { n with read := true } else n))
    ∧ (appReducer s (AppAction.MARK_NOTIFICATION_READ nid) now).notifications.length
        = s.notifications.length
    ∧ (appReducer s (AppAction.MARK_NOTIFICATION_READ nid) now).user = s.user
    ∧ (appReducer s (AppAction.MARK_NOTIFICATION_READ nid) now).profile = s.profile
    ∧ (appReducer s (AppAction.MARK_NOTIFICATION_READ nid) now).loading = s.loading
    ∧ (appReducer s (AppAction.MARK_NOTIFICATION_READ nid) now).theme = s.theme
    ∧ (appReducer s (AppAction.MARK_NOTIFICATION_READ nid) now).sidebarOpen
        = s.sidebarOpen
    ∧ (appReducer s (AppAction.MARK_NOTIFICATION_READ nid) now).preferences
        = s.preferences
    ∧ ((∀ n ∈ s.notifications, n.id ≠ nid) →
        appReducer s (AppAction.MARK_NOTIFICATION_READ nid) now = s) := by
  refine ⟨fun i => ?_, ?_, rfl, rfl, rfl, rfl, rfl, rfl, fun hno => ?_⟩
  · simp [appReducer]
  · simp [appReducer]
  · have hmap : s.notifications.map
        (fun n => if n.id == nid then { n with read := true } else n)
          = s.notifications := by
      have hfix : ∀ n ∈ s.notifications,
          (if n.id == nid then { n with read := true } else n) = n := by
        intro n hn
        rw [if_neg (by simp [hno n hn])]
      exact (List.map_congr_left hfix).trans (List.map_id _)
    have h2 : ({ s with notifications := (s.notifications.map (fun n => if n.id == nid then { n with read := true } else n)) } : AppState) = s := by
      rw [hmap]
    exact h2

/-- Witness for C9_mark_read_frame: length preserved when marking id 1
in the concrete two-notification state, and the state untouched when
marking an id no notification has. -/
theorem C9_witness :
    (appReducer exAppState (AppAction.MARK_NOTIFICATION_READ "1") 9).notifications.length
      = exAppState.notifications.length
    ∧ (∀ n ∈ exAppState.notifications, n.id ≠ "zz")
    ∧ appReducer exAppState (AppAction.MARK_NOTIFICATION_READ "zz") 9 = exAppState :=
  ⟨(C9_mark_read_frame exAppState "1" 9).2.1, by decide,
    (C9_mark_read_frame exAppState "zz" 9).2.2.2.2.2.2.2.2 (by decide)⟩

theorem splitOnCharJs_headD (sep : Char) (l : List Char) :
    (splitOnCharJs sep l).headD [] = l.takeWhile (fun c => c != sep) := by
  induction l with
  | nil => rfl
  | cons c rest ih =>
      by_cases h : c = sep
      · simp only [splitOnCharJs, if_pos h, List.headD_cons, List.takeWhile_cons]
        rw [if_neg (by simp [h])]
      · simp only [splitOnCharJs, if_neg h, List.headD_cons, List.takeWhile_cons]
        rw [if_pos (by simp [h]), ih]

/-- Claim C10: getInitials upper-cases the first two characters of the
part before the first at-sign when the email contains one, of the whole
string when it does not, and returns the empty string on empty input. -/
theorem C10_getInitials (email : List Char) :
    (('@' ∈ email) → getInitials email
        = ((email.takeWhile (fun c => c != '@')).take 2).map Char.toUpper)
    ∧ (('@' ∉ email) → getInitials email = (email.take 2).map Char.toUpper)
    ∧ getInitials ([] : List Char) = [] := by
  refine ⟨fun _ => ?_, fun h => ?_, rfl⟩
  · unfold getInitials
    rw [splitOnCharJs_headD]
  · have ht : email.takeWhile (fun c => c != '@') = email := by
      rw [List.takeWhile_eq_self_iff]
      intro a ha
      simp only [bne_iff_ne, ne_eq]
      exact fun hEq => h (hEq ▸ ha)
    unfold getInitials
    rw [splitOnCharJs_headD, ht]

/-- Witness for C10_getInitials on a concrete email address. -/
theorem C10_witness :
    ('@' ∈ ("john@x.com".toList))
    ∧ getInitials ("john@x.com".toList)
        = ((("john@x.com".toList).takeWhile (fun c => c != '@')).take 2).map
            Char.toUpper
    ∧ getInitials ("john@x.com".toList) = ['J', 'O'] :=
  ⟨by decide, (C10_getInitials ("john@x.com".toList)).1 (by decide), by decide⟩
